import Mathlib

/-!
Verification of the transaction-gateway core of `server_api.py`
(Flask HTTP gateway in front of an Algorand node).

The embedding models, straight from the source:
  * `rate_limit` (lines 429-451): the global `request_counts` dict, the lazy
    expiry sweep, the create/reset/increment logic and the
    `count > REQUEST_LIMIT` return value;
  * `validate_mnemonic` (lines 457-473): boolean credential validation on top
    of the algosdk phrase-to-key primitive;
  * `transfer_funds` (lines 540-600): the `/api/transfer` endpoint body,
    including field validation by Python truthiness, `int(amount)` truncation,
    the 403 path, transaction build/sign/submit and the confirmation wait;
  * `wait_for_confirmation` (lines 603-622): the bounded polling loop;
  * `get_balance` (lines 502-537): the `/api/account/balance` endpoint body.

External collaborators (algosdk key derivation, the algod node client) are
abstracted as an `Env` of pure functions; a raised Python exception is
modelled as `Except.error` carrying `str(e)`.  Python `time.time()` is an
explicit `now : Nat` argument; the process-global `request_counts` dict is an
explicit association-list state threaded through `rate_limit`.
-/

namespace AlgoApi

/-- `REQUEST_LIMIT = 100` (line 412). -/
def REQUEST_LIMIT : Nat := 100

/-- `RATE_WINDOW = 3600` seconds (line 413). -/
def RATE_WINDOW : Nat := 3600

/-- One value of the `request_counts` dict: `{"count": ..., "timestamp": ...}`. -/
structure RateRec where
  count : Nat
  timestamp : Nat
deriving DecidableEq

/-- The global `request_counts` dict (line 414), as an association list keyed
by the client IP string.  `rlSet` keeps at most one entry per key. -/
abbrev RLState := List (String × RateRec)

/-- Dict read `request_counts[ip]`. -/
def rlGet (s : RLState) (ip : String) : Option RateRec :=
  List.lookup ip s

/-- Dict write `request_counts[ip] = r` (replaces any previous entry). -/
def rlSet (s : RLState) (ip : String) (r : RateRec) : RLState :=
  (ip, r) :: List.filter (fun p => p.1 != ip) s

/-- `rate_limit(client_ip)` (lines 429-451).  First the sweep deletes every
entry with `current_time - timestamp > RATE_WINDOW`; then the record for
`client_ip` is created with count 1, reset if its window elapsed, or
incremented; finally the function returns `True` exactly when the stored
count exceeds `REQUEST_LIMIT`.  Returns the flag and the updated dict. -/
def rate_limit (client_ip : String) (now : Nat) (s : RLState) : Bool × RLState :=
  let s1 : RLState := List.filter (fun p => decide (now - p.2.timestamp ≤ RATE_WINDOW)) s
  let s2 : RLState :=
    match rlGet s1 client_ip with
    | some r =>
        if now - r.timestamp > RATE_WINDOW then rlSet s1 client_ip ⟨1, now⟩
        else rlSet s1 client_ip ⟨r.count + 1, r.timestamp⟩
    | none => rlSet s1 client_ip ⟨1, now⟩
  (decide (((rlGet s2 client_ip).getD ⟨0, 0⟩).count > REQUEST_LIMIT), s2)

/-- Run `rate_limit` over a sequence of `(client_ip, time)` requests from the
given initial dict; returns the list of returned flags (`true` = rejected as
rate limited) and the final dict. -/
def rlRun : List (String × Nat) → RLState → List Bool × RLState
  | [], s => ([], s)
  | (ip, t) :: evs, s =>
      let r := rate_limit ip t s
      let rest := rlRun evs r.2
      (r.1 :: rest.1, rest.2)

/-- Python `int()` applied to a JSON number modelled as a rational:
truncation toward zero (`int(1.5) = 1`, `int(-1.5) = -1`). -/
def pyInt (q : ℚ) : Int := Int.tdiv q.num q.den

/-- An unsigned `PaymentTxn` (lines 578-584): sender, suggested params
(abstracted to a token), receiver, integer amount, optional encoded note. -/
structure PaymentTxn where
  sender : String
  sp : Nat
  receiver : String
  amt : Int
  note : Option String
deriving DecidableEq

/-- A signed transaction (line 586): the unsigned txn plus the signing key. -/
structure SignedTxn where
  txn : PaymentTxn
  key : String
deriving DecidableEq

/-- The dict returned by `algod.account_info` as used by `get_balance`
(lines 524-534): the `amount` and `status` fields. -/
structure AccountInfo where
  amount : Nat
  status : String
deriving DecidableEq

/-- Result of one `pending_transaction_info` call (line 610): either a
response dict, whose `confirmed-round` key defaults to 0 and whose
`pool-error` key defaults to the empty (falsy) string, or a raised
exception. -/
inductive PendingResp where
  | ok (confirmedRound : Nat) (poolError : String)
  | exn (msg : String)
deriving DecidableEq

/-- The external collaborators: algosdk mnemonic/account primitives and the
algod client.  `pendingInfo` and `waitForBlock` are indexed by the round
argument of the corresponding call. -/
structure Env where
  toPrivateKey : String → Except String String
  addressFromPrivateKey : String → String
  suggestedParams : Except String Nat
  sendTransaction : SignedTxn → Except String String
  statusLastRound : Except String Nat
  pendingInfo : Nat → PendingResp
  waitForBlock : Nat → Except String Unit
  accountInfo : String → Except String AccountInfo

/-- Interactions performed by one request: node calls plus the local
build/sign steps (tracked so that "no transaction is built, signed or
submitted" is expressible). -/
inductive Event where
  | suggestedParams
  | buildTxn (t : PaymentTxn)
  | signTxn (s : SignedTxn)
  | sendTxn (s : SignedTxn)
  | nodeStatus
  | pendingInfo (round : Nat)
  | waitForBlock (round : Nat)
  | accountInfo (address : String)
deriving DecidableEq

/-- JSON response bodies produced by the two endpoints, one constructor per
`jsonify(...)` site in the source. -/
inductive RespBody where
  | rateLimited
  | missingFields
  | invalidAmount
  | invalidMnemonicSender
  | confirmedBody (txId : String)
  | pendingBody (txId : String) (errMsg : String)
  | serverError (msg : String)
  | missingAddrMnemonic
  | invalidMnemonicAddr
  | balanceError
  | balanceOk (address : String) (balance : Nat) (status : String)
deriving DecidableEq

/-- An HTTP response: status code and JSON body. -/
structure HttpResp where
  status : Nat
  body : RespBody
deriving DecidableEq

/-- `validate_mnemonic(mnemonic_phrase, address)` (lines 457-473): derive the
private key (any exception gives `False`); if the address is truthy, compare
the derived address against it; otherwise return `True`. -/
def validate_mnemonic (env : Env) (phrase address : String) : Bool :=
  match env.toPrivateKey phrase with
  | Except.error _ => false
  | Except.ok pk =>
      if address ≠ "" then decide (env.addressFromPrivateKey pk = address) else true

/-- How one run of `wait_for_confirmation` terminates.  The first three match
the docstring ("confirmed or rejected, or until timeout"); `silentReturn` is
the bare `return` executed when `pending_transaction_info` raises (line 612);
`adapterRaise` is an exception from `client.status()` or
`client.status_after_block(...)` propagating out uncaught. -/
inductive PollerOutcome where
  | confirmedO (round : Nat)
  | rejectedO (reason : String)
  | timedOutO
  | silentReturn
  | adapterRaise (msg : String)
deriving DecidableEq

/-- Is the outcome one of the three terminal outcomes named by the docstring
of `wait_for_confirmation` (Confirmed / Rejected / TimedOut)? -/
def isTerminal3 : PollerOutcome → Bool
  | PollerOutcome.confirmedO _ => true
  | PollerOutcome.rejectedO _ => true
  | PollerOutcome.timedOutO => true
  | _ => false

/-- The `while current_round < start_round + timeout` loop of
`wait_for_confirmation` (lines 608-620), with `fuel` the number of remaining
iterations and `r` the current round.  Per iteration: query
`pending_transaction_info` (a raised exception executes the bare `return`);
a positive `confirmed-round` returns the info; a truthy `pool-error` raises;
otherwise `status_after_block(current_round)` (whose exception propagates)
and the round is incremented.  Falling out of the loop raises the timeout
exception.  Also returns the node calls performed. -/
def pollLoop (env : Env) : Nat → Nat → PollerOutcome × List Event
  | _, 0 => (PollerOutcome.timedOutO, [])
  | r, fuel + 1 =>
      match env.pendingInfo r with
      | PendingResp.exn _ => (PollerOutcome.silentReturn, [Event.pendingInfo r])
      | PendingResp.ok cr pe =>
          if 0 < cr then (PollerOutcome.confirmedO cr, [Event.pendingInfo r])
          else if pe ≠ "" then (PollerOutcome.rejectedO pe, [Event.pendingInfo r])
          else
            match env.waitForBlock r with
            | Except.error m => (PollerOutcome.adapterRaise m, [Event.pendingInfo r, Event.waitForBlock r])
            | Except.ok _ =>
                let rest := pollLoop env (r + 1) fuel
                (rest.1, Event.pendingInfo r :: Event.waitForBlock r :: rest.2)

/-- `wait_for_confirmation(client, txid, timeout=10)` (lines 603-622):
`start_round = client.status()["last-round"] + 1` (an exception here
propagates), then the poll loop for at most `timeout` iterations. -/
def wait_for_confirmation (env : Env) (timeout : Nat) : PollerOutcome × List Event :=
  match env.statusLastRound with
  | Except.error m => (PollerOutcome.adapterRaise m, [Event.nodeStatus])
  | Except.ok lastRound =>
      let rest := pollLoop env (lastRound + 1) timeout
      (rest.1, Event.nodeStatus :: rest.2)

/-- The `try/except` around `wait_for_confirmation` in `transfer_funds`
(lines 591-596): a normal return (a confirmation, or the silent `return` on
a lookup exception) yields `200 {tx_id, status: "confirmed"}`; any raised
exception `e` yields `202 {tx_id, status: "pending", error: str(e)}`. -/
def confirmWaitResp (txId : String) (timeout : Nat) : PollerOutcome → HttpResp
  | PollerOutcome.confirmedO _ => ⟨200, RespBody.confirmedBody txId⟩
  | PollerOutcome.silentReturn => ⟨200, RespBody.confirmedBody txId⟩
  | PollerOutcome.rejectedO reason =>
      ⟨202, RespBody.pendingBody txId ("Transaction failed: " ++ reason)⟩
  | PollerOutcome.timedOutO =>
      ⟨202, RespBody.pendingBody txId ("Transaction not confirmed after " ++ toString timeout ++ " rounds")⟩
  | PollerOutcome.adapterRaise m => ⟨202, RespBody.pendingBody txId m⟩

/-- The parsed JSON body of a `/api/transfer` request.  A missing string
field is the falsy `""` (like `data.get(...) = None`), a missing amount the
falsy `0`; `note` defaults to `""` (line 554). -/
structure TransferReq where
  fromAddr : String
  mnemonic : String
  toAddr : String
  amount : ℚ
  note : String
deriving DecidableEq

/-- `note.encode() if note else None` (line 583). -/
def noteField (note : String) : Option String :=
  if note = "" then none else some note

/-- The `PaymentTxn(...)` built at lines 578-584 from the request, the
suggested params and the truncated amount. -/
def mkTxn (d : TransferReq) (p : Nat) : PaymentTxn :=
  ⟨d.fromAddr, p, d.toAddr, pyInt d.amount, noteField d.note⟩

/-- Body of `transfer_funds` after the rate-limit gate (lines 548-600).
`body = Except.error e` models `request.get_json()` raising, which the
catch-all `except` turns into the 500 response.  Otherwise: truthiness check
of the four required fields, `int(amount)` with the `amount <= 0` re-raise
handled as `400 Invalid amount`, mnemonic validation (403 on failure), the
second `to_private_key` call, parameter fetch, build, sign, submit, and the
confirmation wait.  Exceptions from node calls hit the catch-all and produce
`500 {"error": "Failed to transfer funds: " + str(e)}`.  Also returns the
list of interactions performed. -/
def transferBody (env : Env) (body : Except String TransferReq) : HttpResp × List Event :=
  match body with
  | Except.error e => (⟨500, RespBody.serverError ("Failed to transfer funds: " ++ e)⟩, [])
  | Except.ok d =>
      if d.fromAddr = "" ∨ d.mnemonic = "" ∨ d.toAddr = "" ∨ d.amount = 0 then
        (⟨400, RespBody.missingFields⟩, [])
      else if pyInt d.amount ≤ 0 then
        (⟨400, RespBody.invalidAmount⟩, [])
      else if validate_mnemonic env d.mnemonic d.fromAddr then
        match env.toPrivateKey d.mnemonic with
        | Except.error e =>
            (⟨500, RespBody.serverError ("Failed to transfer funds: " ++ e)⟩, [])
        | Except.ok pk =>
            match env.suggestedParams with
            | Except.error e =>
                (⟨500, RespBody.serverError ("Failed to transfer funds: " ++ e)⟩,
                  [Event.suggestedParams])
            | Except.ok p =>
                match env.sendTransaction ⟨mkTxn d p, pk⟩ with
                | Except.error e =>
                    (⟨500, RespBody.serverError ("Failed to transfer funds: " ++ e)⟩,
                      [Event.suggestedParams, Event.buildTxn (mkTxn d p),
                        Event.signTxn ⟨mkTxn d p, pk⟩, Event.sendTxn ⟨mkTxn d p, pk⟩])
                | Except.ok txId =>
                    let w := wait_for_confirmation env 10
                    (confirmWaitResp txId 10 w.1,
                      [Event.suggestedParams, Event.buildTxn (mkTxn d p),
                        Event.signTxn ⟨mkTxn d p, pk⟩, Event.sendTxn ⟨mkTxn d p, pk⟩] ++ w.2)
      else (⟨403, RespBody.invalidMnemonicSender⟩, [])

/-- The `/api/transfer` endpoint (lines 540-600): the rate-limit gate
(429 on a truthy return) followed by `transferBody`.  Returns the response,
the interactions performed, and the updated rate-limit dict. -/
def transfer_funds (st : RLState) (ip : String) (now : Nat) (env : Env)
    (body : Except String TransferReq) : HttpResp × List Event × RLState :=
  let r := rate_limit ip now st
  if r.1 then (⟨429, RespBody.rateLimited⟩, [], r.2)
  else ((transferBody env body).1, (transferBody env body).2, r.2)

/-- The parsed JSON body of a `/api/account/balance` request. -/
structure BalanceReq where
  address : String
  mnemonic : String
deriving DecidableEq

/-- Body of `get_balance` after the rate-limit gate (lines 510-537): a
`request.get_json()` exception hits the catch-all (500 with the fixed
message); then the truthiness check of both fields, mnemonic validation
(403 on failure), and the `account_info` call whose exception also hits the
catch-all. -/
def balanceBody (env : Env) (body : Except String BalanceReq) : HttpResp × List Event :=
  match body with
  | Except.error _ => (⟨500, RespBody.balanceError⟩, [])
  | Except.ok d =>
      if d.address = "" ∨ d.mnemonic = "" then (⟨400, RespBody.missingAddrMnemonic⟩, [])
      else if validate_mnemonic env d.mnemonic d.address then
        match env.accountInfo d.address with
        | Except.error _ => (⟨500, RespBody.balanceError⟩, [Event.accountInfo d.address])
        | Except.ok info =>
            (⟨200, RespBody.balanceOk d.address info.amount
                (if info.status = "Online" then "active" else "offline")⟩,
              [Event.accountInfo d.address])
      else (⟨403, RespBody.invalidMnemonicAddr⟩, [])

/-- The `/api/account/balance` endpoint (lines 502-537): rate-limit gate then
`balanceBody`. -/
def get_balance (st : RLState) (ip : String) (now : Nat) (env : Env)
    (body : Except String BalanceReq) : HttpResp × List Event × RLState :=
  let r := rate_limit ip now st
  if r.1 then (⟨429, RespBody.rateLimited⟩, [], r.2)
  else ((balanceBody env body).1, (balanceBody env body).2, r.2)

/-! ### Concrete environments and requests used by the closed theorems -/

/-- A healthy environment: the mnemonic "good mnemonic" derives key "sk"
whose address is "ADDRA"; every other phrase raises; the node answers every
call, reports last round 4, and confirms the transaction at the first poll
(round 5). -/
def envOk : Env :=
  { toPrivateKey := fun m =>
      if m = "good mnemonic" then Except.ok "sk" else Except.error "wrong checksum"
    addressFromPrivateKey := fun k => if k = "sk" then "ADDRA" else "OTHER"
    suggestedParams := Except.ok 7
    sendTransaction := fun _ => Except.ok "TXID1"
    statusLastRound := Except.ok 4
    pendingInfo := fun r => if r = 5 then PendingResp.ok 6 "" else PendingResp.ok 0 ""
    waitForBlock := fun _ => Except.ok ()
    accountInfo := fun a => Except.ok ⟨250000, if a = "ADDRA" then "Online" else "Offline"⟩ }

/-- Same as `envOk` except that every `pending_transaction_info` call raises
(connection refused), as does `account_info`: the node becomes unreachable
right after the transaction is submitted. -/
def envDown : Env :=
  { envOk with
    pendingInfo := fun _ => PendingResp.exn "connection refused"
    accountInfo := fun _ => Except.error "connection refused" }

/-- Same as `envOk` except that every poll finds the transaction still
pending with no pool error: the round budget gets exhausted. -/
def envSlow : Env := { envOk with pendingInfo := fun _ => PendingResp.ok 0 "" }

/-- Same as `envOk` except that the transaction pool rejects the transaction
with reason "overspend" at every poll. -/
def envReject : Env := { envOk with pendingInfo := fun _ => PendingResp.ok 0 "overspend" }

/-- A well-formed transfer request matching `envOk`: sender ADDRA with its
correct mnemonic, 5 atomic units to ADDRB, no note. -/
def reqA : TransferReq := ⟨"ADDRA", "good mnemonic", "ADDRB", 5, ""⟩

/-- 200 requests from one caller: one at t = 0, then 99 at t = 3600 (the last
second of the first anchored window) and 100 at t = 3601 (just after the
anchored window expires). -/
def c2evs : List (String × Nat) :=
  ("a", 0) :: (List.replicate 99 ("a", 3600) ++ List.replicate 100 ("a", 3601))

/-- Number of requests with timestamp in `[lo, hi]` that the rate limiter
admitted (flag `false` = not rate limited), given the per-request flags. -/
def admittedWithin (lo hi : Nat) (evs : List (String × Nat)) (flags : List Bool) : Nat :=
  (evs.zip flags).countP (fun p => decide (lo ≤ p.1.2 ∧ p.1.2 ≤ hi) && (p.2 == false))

/-- The sequence of rate-limit flags for a single caller `ip` whose first
request is at `t0` and whose later requests are at the times in `ts`,
starting from an empty dict. -/
def rlFlags (ip : String) (t0 : Nat) (ts : List Nat) : List Bool :=
  (rlRun ((ip, t0) :: ts.map (fun t => (ip, t))) []).1

/-- The final dict of the same run. -/
def rlFinal (ip : String) (t0 : Nat) (ts : List Nat) : RLState :=
  (rlRun ((ip, t0) :: ts.map (fun t => (ip, t))) []).2

/-- The expected flags of `n` consecutive in-window requests that find the
caller's counter at `k`: request number `i` (0-based) stores count
`k + i + 1` and is rejected iff that count exceeds the limit. -/
def countFlags (k : Nat) : Nat → List Bool
  | 0 => []
  | n + 1 => decide (k + 1 > REQUEST_LIMIT) :: countFlags (k + 1) n

/-- Number of `pending_transaction_info` calls in an interaction trace: the
number of poll-loop iterations performed. -/
def pendingCalls (evs : List Event) : Nat :=
  evs.countP (fun e => match e with | Event.pendingInfo _ => true | _ => false)

/-! ### Rate-limiter lemmas -/

/-- First request from a caller: entry created with count 1, not limited. -/
lemma rate_limit_first (ip : String) (t : Nat) :
    rate_limit ip t [] = (false, [(ip, ⟨1, t⟩)]) := by
  simp [rate_limit, rlGet, rlSet, List.lookup, REQUEST_LIMIT]

/-- In-window request against a single-entry dict: the count increments, the
timestamp is unchanged, and the flag is `count > REQUEST_LIMIT`. -/
lemma rate_limit_step (ip : String) (t t0 k : Nat) (h : t - t0 ≤ RATE_WINDOW) :
    rate_limit ip t [(ip, ⟨k, t0⟩)] =
      (decide (k + 1 > REQUEST_LIMIT), [(ip, ⟨k + 1, t0⟩)]) := by
  have hb : t ≤ RATE_WINDOW + t0 := by omega
  have hc : ¬ RATE_WINDOW < t - t0 := by omega
  simp [rate_limit, rlGet, rlSet, List.lookup, List.filter_cons, h, hb, hc]

/-- Request after the window elapsed: the sweep deletes the entry and a fresh
record with count 1 is created; the request is admitted. -/
lemma rate_limit_reset (ip : String) (t t0 k : Nat) (h : RATE_WINDOW < t - t0) :
    rate_limit ip t [(ip, ⟨k, t0⟩)] = (false, [(ip, ⟨1, t⟩)]) := by
  have hb : ¬ t ≤ RATE_WINDOW + t0 := by omega
  have hc : ¬ t - t0 ≤ RATE_WINDOW := by omega
  simp [rate_limit, rlGet, rlSet, List.lookup, List.filter_cons, hb, hc, REQUEST_LIMIT]

/-- Running a block of in-window requests of one caller from a single-entry
dict just counts them up. -/
lemma rlRun_steps (ip : String) (ts : List Nat) (t0 : Nat)
    (h : ∀ t ∈ ts, t - t0 ≤ RATE_WINDOW) :
    ∀ k, rlRun (ts.map (fun t => (ip, t))) [(ip, ⟨k, t0⟩)] =
      (countFlags k ts.length, [(ip, ⟨k + ts.length, t0⟩)]) := by
  induction ts with
  | nil => intro k; simp [rlRun, countFlags]
  | cons t ts ih =>
      intro k
      have h1 : t - t0 ≤ RATE_WINDOW := h t (List.mem_cons_self t ts)
      have h2 : ∀ u ∈ ts, u - t0 ≤ RATE_WINDOW := fun u hu => h u (List.mem_cons_of_mem t hu)
      simp only [List.map_cons, rlRun, rate_limit_step ip t t0 k h1, ih h2 (k + 1),
        List.length_cons, countFlags]
      have harith : k + 1 + ts.length = k + (ts.length + 1) := by omega
      rw [harith]

/-- A full single-caller run from the empty dict, all follow-up requests
inside the window anchored at the first request's time. -/
lemma rlRun_from_empty (ip : String) (t0 : Nat) (ts : List Nat)
    (h : ∀ t ∈ ts, t - t0 ≤ RATE_WINDOW) :
    rlRun ((ip, t0) :: ts.map (fun t => (ip, t))) [] =
      (countFlags 0 (ts.length + 1), [(ip, ⟨1 + ts.length, t0⟩)]) := by
  simp [rlRun, rate_limit_first, rlRun_steps ip ts t0 h 1, countFlags, REQUEST_LIMIT]

/-- Flag of the i-th of n consecutive in-window requests starting at count
`k`: rejected exactly when the stored count `k + i + 1` exceeds the limit. -/
lemma countFlags_get (n : Nat) :
    ∀ k i, i < n → (countFlags k n)[i]? = some (decide (k + i + 1 > REQUEST_LIMIT)) := by
  induction n with
  | zero => intro k i hi; omega
  | succ n ih =>
      intro k i hi
      cases i with
      | zero =>
          simp [countFlags]
      | succ j =>
          simp only [countFlags, List.getElem?_cons_succ]
          rw [ih (k + 1) j (by omega)]
          exact congrArg some (decide_eq_decide.mpr (by omega))

/-- At most `REQUEST_LIMIT - k` of a block of in-window requests starting at
count `k` are admitted. -/
lemma countFlags_count_false (n : Nat) :
    ∀ k, (countFlags k n).count false ≤ REQUEST_LIMIT - k := by
  induction n with
  | zero => intro k; simp [countFlags]
  | succ n ih =>
      intro k
      simp only [countFlags, List.count_cons]
      have hn := ih (k + 1)
      by_cases hk : k + 1 > REQUEST_LIMIT
      · simp [hk]
        omega
      · simp [hk]
        omega

/-! ### Truncation lemmas for Python int() -/

/-- On nonnegative rationals, Python `int()` (truncation toward zero) agrees
with the floor function. -/
lemma pyInt_eq_floor (q : ℚ) (h : 0 ≤ q) : pyInt q = ⌊q⌋ := by
  rw [pyInt, Rat.floor_def]
  exact Int.tdiv_eq_ediv (Rat.num_nonneg.mpr h) (Int.natCast_nonneg _)

/-- `int(q)` is positive whenever `1 ≤ q`. -/
lemma pyInt_pos (q : ℚ) (h : 1 ≤ q) : 0 < pyInt q := by
  have h0 : (0 : ℚ) ≤ q := le_trans zero_le_one h
  rw [pyInt_eq_floor q h0]
  exact lt_of_lt_of_le Int.zero_lt_one (Int.le_floor.mpr (by exact_mod_cast h))

/-- `int(q) = 0` for `0 ≤ q < 1`. -/
lemma pyInt_eq_zero (q : ℚ) (h0 : 0 ≤ q) (h1 : q < 1) : pyInt q = 0 := by
  rw [pyInt_eq_floor q h0]
  exact Int.floor_eq_zero_iff.mpr ⟨h0, h1⟩

/-! ### Credential-validation lemmas -/

/-- A derivable mnemonic whose derived address equals the (truthy) claimed
address validates. -/
lemma validate_mnemonic_ok (env : Env) (phrase address pk : String)
    (hpk : env.toPrivateKey phrase = Except.ok pk)
    (haddr : env.addressFromPrivateKey pk = address) (hne : address ≠ "") :
    validate_mnemonic env phrase address = true := by
  simp [validate_mnemonic, hpk, hne, haddr]

/-- A derivable mnemonic whose derived address differs from the (truthy)
claimed address fails validation. -/
lemma validate_mnemonic_mismatch (env : Env) (phrase address pk : String)
    (hpk : env.toPrivateKey phrase = Except.ok pk) (hne : address ≠ "")
    (haddr : env.addressFromPrivateKey pk ≠ address) :
    validate_mnemonic env phrase address = false := by
  simp [validate_mnemonic, hpk, hne, haddr]

/-- A malformed phrase (the derivation primitive raises) fails validation. -/
lemma validate_mnemonic_badphrase (env : Env) (phrase address e : String)
    (hpk : env.toPrivateKey phrase = Except.error e) :
    validate_mnemonic env phrase address = false := by
  simp [validate_mnemonic, hpk]

/-! ### Poller lemmas -/

/-- The poll loop performs at most `fuel` pending-transaction lookups. -/
lemma pollLoop_pending_le (env : Env) (fuel : Nat) :
    ∀ r, pendingCalls (pollLoop env r fuel).2 ≤ fuel := by
  induction fuel with
  | zero => intro r; simp [pollLoop, pendingCalls]
  | succ n ih =>
      intro r
      simp only [pollLoop]
      cases hp : env.pendingInfo r with
      | exn m => simp [pendingCalls, List.countP_cons]
      | ok cr pe =>
          by_cases h1 : 0 < cr
          · simp [h1, pendingCalls, List.countP_cons]
          · by_cases h2 : pe ≠ ""
            · simp [h1, h2, pendingCalls, List.countP_cons]
            · cases hw : env.waitForBlock r with
              | error m => simp [h1, h2, pendingCalls, List.countP_cons]
              | ok u =>
                  have hr := ih (r + 1)
                  simp only [if_neg h1, if_neg h2]
                  simp [pendingCalls, List.countP_cons] at hr ⊢
                  omega

/-- `wait_for_confirmation` performs at most `timeout` polling iterations. -/
lemma wait_pending_le (env : Env) (timeout : Nat) :
    pendingCalls (wait_for_confirmation env timeout).2 ≤ timeout := by
  cases hs : env.statusLastRound with
  | error m => simp [wait_for_confirmation, hs, pendingCalls, List.countP_cons]
  | ok lastRound =>
      have := pollLoop_pending_le env timeout (lastRound + 1)
      simp only [wait_for_confirmation, hs]
      simp [pendingCalls, List.countP_cons] at this ⊢
      omega

/-- If every lookup reports a still-pending transaction with no pool error
and all block waits succeed, the loop runs out of fuel: TimedOut. -/
lemma pollLoop_timeoutO (env : Env)
    (hpend : ∀ r, env.pendingInfo r = PendingResp.ok 0 "")
    (hwait : ∀ r, env.waitForBlock r = Except.ok ()) (fuel : Nat) :
    ∀ r, (pollLoop env r fuel).1 = PollerOutcome.timedOutO := by
  induction fuel with
  | zero => intro r; rfl
  | succ n ih => intro r; simp [pollLoop, hpend r, hwait r, ih (r + 1)]

/-- A truthy pool error at the first polled round raises immediately:
Rejected. -/
lemma pollLoop_rejectedO (env : Env) (r : Nat) (pe : String) (fuel : Nat)
    (hpend : env.pendingInfo r = PendingResp.ok 0 pe) (hpe : pe ≠ "") (hfuel : 0 < fuel) :
    (pollLoop env r fuel).1 = PollerOutcome.rejectedO pe := by
  cases fuel with
  | zero => exact absurd hfuel (by omega)
  | succ n => simp [pollLoop, hpend, hpe]

/-- TimedOut outcome of `wait_for_confirmation` under an always-pending
node. -/
lemma wait_timeoutO (env : Env) (s : Nat)
    (hstatus : env.statusLastRound = Except.ok s)
    (hpend : ∀ r, env.pendingInfo r = PendingResp.ok 0 "")
    (hwait : ∀ r, env.waitForBlock r = Except.ok ()) :
    (wait_for_confirmation env 10).1 = PollerOutcome.timedOutO := by
  simp [wait_for_confirmation, hstatus, pollLoop_timeoutO env hpend hwait 10 (s + 1)]

/-- Rejected outcome of `wait_for_confirmation` when the first polled round
reports a pool error. -/
lemma wait_rejectedO (env : Env) (s : Nat) (pe : String)
    (hstatus : env.statusLastRound = Except.ok s)
    (hpend : env.pendingInfo (s + 1) = PendingResp.ok 0 pe) (hpe : pe ≠ "") :
    (wait_for_confirmation env 10).1 = PollerOutcome.rejectedO pe := by
  simp [wait_for_confirmation, hstatus,
    pollLoop_rejectedO env (s + 1) pe 10 hpend hpe (by omega)]

/-- The confirmation-wait response is never a 400. -/
lemma confirmWaitResp_status (txId : String) (timeout : Nat) (o : PollerOutcome) :
    (confirmWaitResp txId timeout o).status = 200 ∨ (confirmWaitResp txId timeout o).status = 202 := by
  cases o <;> simp [confirmWaitResp]

/-- A pool-rejection message never coincides with the timeout message (the
strings differ at index 12). -/
lemma rejected_msg_ne (pe : String) :
    ("Transaction failed: " ++ pe) ≠ "Transaction not confirmed after 10 rounds" := by
  intro h
  have h1 : ("Transaction failed: ".data ++ pe.data)
      = ("Transaction not confirmed after 10 rounds").data := by
    rw [← String.data_append]
    exact congrArg String.data h
  have h2 : ("Transaction failed: ".data ++ pe.data)[12]?
      = (("Transaction not confirmed after 10 rounds").data)[12]? := by rw [h1]
  rw [List.getElem?_append_left (by decide)] at h2
  exact absurd h2 (by decide)

/-! ### Transfer-pipeline lemma -/

/-- A fully valid transfer request that the node accepts reaches the
confirmation wait: the response is determined by the poller outcome and the
trace is the submission events followed by the poll events. -/
lemma transfer_submits (st : RLState) (ip : String) (now : Nat) (env : Env)
    (d : TransferReq) (pk : String) (p : Nat) (txId : String)
    (hrl : (rate_limit ip now st).1 = false)
    (hfrom : d.fromAddr ≠ "") (hmn : d.mnemonic ≠ "") (hto : d.toAddr ≠ "")
    (hamt : d.amount ≠ 0) (hpos : 0 < pyInt d.amount)
    (hpk : env.toPrivateKey d.mnemonic = Except.ok pk)
    (haddr : env.addressFromPrivateKey pk = d.fromAddr)
    (hparams : env.suggestedParams = Except.ok p)
    (hsend : env.sendTransaction ⟨mkTxn d p, pk⟩ = Except.ok txId) :
    transfer_funds st ip now env (Except.ok d) =
      (confirmWaitResp txId 10 (wait_for_confirmation env 10).1,
        [Event.suggestedParams, Event.buildTxn (mkTxn d p),
          Event.signTxn ⟨mkTxn d p, pk⟩, Event.sendTxn ⟨mkTxn d p, pk⟩]
          ++ (wait_for_confirmation env 10).2,
        (rate_limit ip now st).2) := by
  have hval := validate_mnemonic_ok env d.mnemonic d.fromAddr pk hpk haddr hfrom
  have hnpos : ¬ pyInt d.amount ≤ 0 := not_le.mpr hpos
  simp [transfer_funds, hrl, transferBody, hfrom, hmn, hto, hamt, hnpos, hval, hpk,
    hparams, hsend]

/-! ### Claim theorems -/

/-- C1: the claim fails on the code.  In `wait_for_confirmation` an exception
from the pending-transaction lookup executes the bare `return` (line 612), so
with a node that refuses every lookup right after submission the transfer
endpoint answers `200 {tx_id, status: "confirmed"}` — it reports the transfer
as confirmed instead of a 500-equivalent NodeUnavailable error. -/
theorem C1_adapter_failure_reported_confirmed :
    (∀ r, envDown.pendingInfo r = PendingResp.exn "connection refused")
    ∧ (transfer_funds [] "caller" 0 envDown (Except.ok reqA)).1
        = ⟨200, RespBody.confirmedBody "TXID1"⟩
    ∧ (transfer_funds [] "caller" 0 envDown (Except.ok reqA)).1.status ≠ 500 :=
  ⟨fun _ => rfl, by decide, by decide⟩

set_option maxRecDepth 4000 in
/-- C2 counterexample: with one request at t = 0, then 99 at t = 3600 and 100
at t = 3601, the limiter admits 199 requests whose times all lie in the
interval [3600, 3601], contained in a single rolling window-length interval —
more than `REQUEST_LIMIT` — because the implemented window is anchored at the
first request instead of rolling. -/
theorem C2_rolling_window_counterexample :
    admittedWithin 3600 3601 c2evs (rlRun c2evs []).1 = 199
    ∧ REQUEST_LIMIT < 199
    ∧ 3601 - 3600 ≤ RATE_WINDOW := by decide

/-- C2 (amended): for every caller the limiter enforces a fixed window
anchored at the caller's first request: the i-th request (0-based) inside
that window is admitted exactly when i + 1 ≤ limit, hence at most
`REQUEST_LIMIT` requests are admitted inside the anchored window, the
(limit+1)-th request is rejected, and a request issued more than
`RATE_WINDOW` seconds after the first is admitted again. -/
theorem C2_fixed_window_rate_limiting (ip : String) (t0 : Nat) (ts : List Nat)
    (hin : ∀ t ∈ ts, t - t0 ≤ RATE_WINDOW) (teps : Nat)
    (heps : RATE_WINDOW < teps - t0) :
    (rlFlags ip t0 ts).count false ≤ REQUEST_LIMIT
    ∧ (∀ i, i < ts.length + 1 →
        (rlFlags ip t0 ts)[i]? = some (decide (i + 1 > REQUEST_LIMIT)))
    ∧ (REQUEST_LIMIT < ts.length + 1 →
        (rlFlags ip t0 ts)[REQUEST_LIMIT]? = some true)
    ∧ (rate_limit ip teps (rlFinal ip t0 ts)).1 = false := by
  have hrun := rlRun_from_empty ip t0 ts hin
  have hflags : rlFlags ip t0 ts = countFlags 0 (ts.length + 1) := by
    rw [rlFlags, hrun]
  have hfinal : rlFinal ip t0 ts = [(ip, ⟨1 + ts.length, t0⟩)] := by
    rw [rlFinal, hrun]
  refine ⟨?_, ?_, ?_, ?_⟩
  · rw [hflags]
    have := countFlags_count_false (ts.length + 1) 0
    omega
  · intro i hi
    rw [hflags, countFlags_get (ts.length + 1) 0 i hi]
    exact congrArg some (decide_eq_decide.mpr (by omega))
  · intro hlen
    rw [hflags, countFlags_get (ts.length + 1) 0 REQUEST_LIMIT (by omega)]
    exact congrArg some (decide_eq_true (by omega))
  · rw [hfinal, rate_limit_reset ip teps t0 (1 + ts.length) heps]

/-- C2 witness: a caller sending requests at t = 0, 1, 2 and again at
t = 3601. -/
theorem C2_fixed_window_rate_limiting_witness :
    (rlFlags "a" 0 [1, 2]).count false ≤ REQUEST_LIMIT
    ∧ (∀ i, i < [1, 2].length + 1 →
        (rlFlags "a" 0 [1, 2])[i]? = some (decide (i + 1 > REQUEST_LIMIT)))
    ∧ (REQUEST_LIMIT < [1, 2].length + 1 →
        (rlFlags "a" 0 [1, 2])[REQUEST_LIMIT]? = some true)
    ∧ (rate_limit "a" 3601 (rlFinal "a" 0 [1, 2])).1 = false :=
  C2_fixed_window_rate_limiting "a" 0 [1, 2] (by decide) 3601 (by decide)

/-- C3: the iteration bound holds for every environment (first conjunct),
but the poller does not always end in one of the three documented terminal
outcomes: with every lookup raising it ends, after a single iteration, in
the undocumented silent `return` of line 612 — a fourth outcome. -/
theorem C3_poller_bound_and_fourth_outcome :
    (∀ env timeout, pendingCalls (wait_for_confirmation env timeout).2 ≤ timeout)
    ∧ wait_for_confirmation envDown 10
        = (PollerOutcome.silentReturn, [Event.nodeStatus, Event.pendingInfo 5])
    ∧ isTerminal3 (wait_for_confirmation envDown 10).1 = false :=
  ⟨wait_pending_le, by decide, by decide⟩

/-- C3 witness: the bound instantiated at a concrete node environment. -/
theorem C3_poller_bound_and_fourth_outcome_witness :
    pendingCalls (wait_for_confirmation envOk 10).2 ≤ 10 :=
  C3_poller_bound_and_fourth_outcome.1 envOk 10

/-- C4 counterexample: a transfer with amount exactly 0 and all other fields
valid is answered 400 with body "Missing required fields" — not
"Invalid amount" — because Python `all(...)` treats the falsy integer 0 as a
missing field; no interaction is performed. -/
theorem C4_zero_amount_counterexample :
    (transfer_funds [] "caller" 0 envOk
        (Except.ok ⟨"ADDRA", "good mnemonic", "ADDRB", 0, ""⟩)).1
      = ⟨400, RespBody.missingFields⟩
    ∧ (⟨400, RespBody.missingFields⟩ : HttpResp) ≠ ⟨400, RespBody.invalidAmount⟩
    ∧ (transfer_funds [] "caller" 0 envOk
        (Except.ok ⟨"ADDRA", "good mnemonic", "ADDRB", 0, ""⟩)).2.1 = [] := by
  decide

/-- C4 (amended): a transfer whose amount equals 0 is answered HTTP 400 with
the body "Missing required fields" (the falsy zero trips the required-fields
truthiness check before the amount parse) and no node interaction — nothing
at all — is performed. -/
theorem C4_zero_amount_missing_fields (st : RLState) (ip : String) (now : Nat)
    (env : Env) (d : TransferReq)
    (hrl : (rate_limit ip now st).1 = false) (hamt : d.amount = 0) :
    (transfer_funds st ip now env (Except.ok d)).1 = ⟨400, RespBody.missingFields⟩
    ∧ (transfer_funds st ip now env (Except.ok d)).2.1 = [] := by
  constructor <;> simp [transfer_funds, hrl, transferBody, hamt]

/-- C4 witness: the amended statement at a concrete request. -/
theorem C4_zero_amount_missing_fields_witness :
    (transfer_funds [] "caller" 0 envOk
        (Except.ok ⟨"ADDRA", "good mnemonic", "ADDRB", 0, ""⟩)).1
      = ⟨400, RespBody.missingFields⟩
    ∧ (transfer_funds [] "caller" 0 envOk
        (Except.ok ⟨"ADDRA", "good mnemonic", "ADDRB", 0, ""⟩)).2.1 = [] :=
  C4_zero_amount_missing_fields [] "caller" 0 envOk _ (by decide) (by decide)

/-- C5: a transfer whose mnemonic derives to an address different from the
claimed sender is answered HTTP 403 with the mismatch body — deterministic,
so never 500 — and no parameter fetch, build, sign or submission happens. -/
theorem C5_mnemonic_mismatch_403 (st : RLState) (ip : String) (now : Nat)
    (env : Env) (d : TransferReq) (pk : String)
    (hrl : (rate_limit ip now st).1 = false)
    (hfrom : d.fromAddr ≠ "") (hmn : d.mnemonic ≠ "") (hto : d.toAddr ≠ "")
    (hamt : d.amount ≠ 0) (hpos : 0 < pyInt d.amount)
    (hpk : env.toPrivateKey d.mnemonic = Except.ok pk)
    (hmm : env.addressFromPrivateKey pk ≠ d.fromAddr) :
    (transfer_funds st ip now env (Except.ok d)).1
        = ⟨403, RespBody.invalidMnemonicSender⟩
    ∧ (transfer_funds st ip now env (Except.ok d)).2.1 = [] := by
  have hval := validate_mnemonic_mismatch env d.mnemonic d.fromAddr pk hpk hfrom hmm
  have hnpos : ¬ pyInt d.amount ≤ 0 := not_le.mpr hpos
  constructor <;> simp [transfer_funds, hrl, transferBody, hfrom, hmn, hto, hamt, hnpos, hval]

/-- C5 witness: valid mnemonic for ADDRA claimed as sender ADDRX. -/
theorem C5_mnemonic_mismatch_403_witness :
    (transfer_funds [] "caller" 0 envOk
        (Except.ok ⟨"ADDRX", "good mnemonic", "ADDRB", 5, ""⟩)).1
      = ⟨403, RespBody.invalidMnemonicSender⟩
    ∧ (transfer_funds [] "caller" 0 envOk
        (Except.ok ⟨"ADDRX", "good mnemonic", "ADDRB", 5, ""⟩)).2.1 = [] :=
  C5_mnemonic_mismatch_403 [] "caller" 0 envOk _ "sk" (by decide) (by decide)
    (by decide) (by decide) (by decide) (by decide) rfl (by decide)

/-- C6 counterexample: a malformed phrase (derivation raises) and a
well-formed but mismatching phrase produce literally identical outcomes —
the validator returns False for both and the balance endpoint answers the
same 403 body for both — so the two cases are not distinguishable at either
interface. -/
theorem C6_indistinguishable_counterexample :
    validate_mnemonic envOk "bad" "ADDRB" = validate_mnemonic envOk "good mnemonic" "ADDRB"
    ∧ (get_balance [] "caller" 0 envOk (Except.ok ⟨"ADDRB", "bad"⟩)).1
        = (get_balance [] "caller" 0 envOk (Except.ok ⟨"ADDRB", "good mnemonic"⟩)).1
    ∧ (get_balance [] "caller" 0 envOk (Except.ok ⟨"ADDRB", "bad"⟩)).1
        = ⟨403, RespBody.invalidMnemonicAddr⟩ := by
  refine ⟨by decide, by decide, by decide⟩

/-- C6 (amended): malformed phrases do fail closed — the validator returns
False and the endpoint answers 403 with no node interaction — but with
exactly the same False/403 outcome as a well-formed mismatching phrase, not
a distinguishable one. -/
theorem C6_fails_closed_uniform_403 :
    (∀ (st : RLState) (ip : String) (now : Nat) (env : Env) (d : BalanceReq) (e : String),
      (rate_limit ip now st).1 = false → d.address ≠ "" → d.mnemonic ≠ "" →
      env.toPrivateKey d.mnemonic = Except.error e →
      validate_mnemonic env d.mnemonic d.address = false
      ∧ (get_balance st ip now env (Except.ok d)).1 = ⟨403, RespBody.invalidMnemonicAddr⟩
      ∧ (get_balance st ip now env (Except.ok d)).2.1 = [])
    ∧ (∀ (st : RLState) (ip : String) (now : Nat) (env : Env) (d : BalanceReq) (pk : String),
      (rate_limit ip now st).1 = false → d.address ≠ "" → d.mnemonic ≠ "" →
      env.toPrivateKey d.mnemonic = Except.ok pk →
      env.addressFromPrivateKey pk ≠ d.address →
      validate_mnemonic env d.mnemonic d.address = false
      ∧ (get_balance st ip now env (Except.ok d)).1 = ⟨403, RespBody.invalidMnemonicAddr⟩
      ∧ (get_balance st ip now env (Except.ok d)).2.1 = []) := by
  constructor
  · intro st ip now env d e hrl ha hm hpk
    have hval := validate_mnemonic_badphrase env d.mnemonic d.address e hpk
    exact ⟨hval, by simp [get_balance, hrl, balanceBody, ha, hm, hval],
      by simp [get_balance, hrl, balanceBody, ha, hm, hval]⟩
  · intro st ip now env d pk hrl ha hm hpk hne
    have hval := validate_mnemonic_mismatch env d.mnemonic d.address pk hpk ha hne
    exact ⟨hval, by simp [get_balance, hrl, balanceBody, ha, hm, hval],
      by simp [get_balance, hrl, balanceBody, ha, hm, hval]⟩

/-- C6 witness: the two branches of the amended statement at concrete
phrases. -/
theorem C6_fails_closed_uniform_403_witness :
    (validate_mnemonic envOk "bad" "ADDRB" = false
      ∧ (get_balance [] "c" 0 envOk (Except.ok ⟨"ADDRB", "bad"⟩)).1
          = ⟨403, RespBody.invalidMnemonicAddr⟩
      ∧ (get_balance [] "c" 0 envOk (Except.ok ⟨"ADDRB", "bad"⟩)).2.1 = [])
    ∧ (validate_mnemonic envOk "good mnemonic" "ADDRB" = false
      ∧ (get_balance [] "c" 0 envOk (Except.ok ⟨"ADDRB", "good mnemonic"⟩)).1
          = ⟨403, RespBody.invalidMnemonicAddr⟩
      ∧ (get_balance [] "c" 0 envOk (Except.ok ⟨"ADDRB", "good mnemonic"⟩)).2.1 = []) :=
  ⟨C6_fails_closed_uniform_403.1 [] "c" 0 envOk ⟨"ADDRB", "bad"⟩ "wrong checksum"
      (by decide) (by decide) (by decide) rfl,
    C6_fails_closed_uniform_403.2 [] "c" 0 envOk ⟨"ADDRB", "good mnemonic"⟩ "sk"
      (by decide) (by decide) (by decide) rfl (by decide)⟩

/-- C7: exhausting the poll budget yields HTTP 202 carrying the tx_id and
the timeout message, a pool rejection yields HTTP 202 carrying the tx_id and
the pool error embedded in the "Transaction failed: " message (so the reason
is reported, not swallowed), and the two bodies can never coincide. -/
theorem C7_timeout_202_distinct_from_rejected
    (st st2 : RLState) (ip ip2 : String) (now now2 : Nat) (env env2 : Env)
    (d d2 : TransferReq) (pk pk2 : String) (p p2 : Nat) (txId txId2 : String)
    (s s2 : Nat) (pe : String)
    (hrl : (rate_limit ip now st).1 = false)
    (hfrom : d.fromAddr ≠ "") (hmn : d.mnemonic ≠ "") (hto : d.toAddr ≠ "")
    (hamt : d.amount ≠ 0) (hpos : 0 < pyInt d.amount)
    (hpk : env.toPrivateKey d.mnemonic = Except.ok pk)
    (haddr : env.addressFromPrivateKey pk = d.fromAddr)
    (hparams : env.suggestedParams = Except.ok p)
    (hsend : env.sendTransaction ⟨mkTxn d p, pk⟩ = Except.ok txId)
    (hstatus : env.statusLastRound = Except.ok s)
    (hpend : ∀ r, env.pendingInfo r = PendingResp.ok 0 "")
    (hwait : ∀ r, env.waitForBlock r = Except.ok ())
    (hrl2 : (rate_limit ip2 now2 st2).1 = false)
    (hfrom2 : d2.fromAddr ≠ "") (hmn2 : d2.mnemonic ≠ "") (hto2 : d2.toAddr ≠ "")
    (hamt2 : d2.amount ≠ 0) (hpos2 : 0 < pyInt d2.amount)
    (hpk2 : env2.toPrivateKey d2.mnemonic = Except.ok pk2)
    (haddr2 : env2.addressFromPrivateKey pk2 = d2.fromAddr)
    (hparams2 : env2.suggestedParams = Except.ok p2)
    (hsend2 : env2.sendTransaction ⟨mkTxn d2 p2, pk2⟩ = Except.ok txId2)
    (hstatus2 : env2.statusLastRound = Except.ok s2)
    (hpend2 : env2.pendingInfo (s2 + 1) = PendingResp.ok 0 pe) (hpe : pe ≠ "") :
    (transfer_funds st ip now env (Except.ok d)).1
        = ⟨202, RespBody.pendingBody txId "Transaction not confirmed after 10 rounds"⟩
    ∧ (transfer_funds st2 ip2 now2 env2 (Except.ok d2)).1
        = ⟨202, RespBody.pendingBody txId2 ("Transaction failed: " ++ pe)⟩
    ∧ RespBody.pendingBody txId2 ("Transaction failed: " ++ pe)
        ≠ RespBody.pendingBody txId2 "Transaction not confirmed after 10 rounds" := by
  refine ⟨?_, ?_, ?_⟩
  · rw [transfer_submits st ip now env d pk p txId hrl hfrom hmn hto hamt hpos hpk
      haddr hparams hsend, wait_timeoutO env s hstatus hpend hwait]
    rfl
  · rw [transfer_submits st2 ip2 now2 env2 d2 pk2 p2 txId2 hrl2 hfrom2 hmn2 hto2 hamt2
      hpos2 hpk2 haddr2 hparams2 hsend2, wait_rejectedO env2 s2 pe hstatus2 hpend2 hpe]
    rfl
  · intro hcontra
    injection hcontra with h1 h2
    exact rejected_msg_ne pe h2

/-- C7 witness: the statement at an always-pending node and at a rejecting
node. -/
theorem C7_timeout_202_distinct_from_rejected_witness :
    (transfer_funds [] "caller" 0 envSlow (Except.ok reqA)).1
        = ⟨202, RespBody.pendingBody "TXID1" "Transaction not confirmed after 10 rounds"⟩
    ∧ (transfer_funds [] "caller" 0 envReject (Except.ok reqA)).1
        = ⟨202, RespBody.pendingBody "TXID1" ("Transaction failed: " ++ "overspend")⟩
    ∧ RespBody.pendingBody "TXID1" ("Transaction failed: " ++ "overspend")
        ≠ RespBody.pendingBody "TXID1" "Transaction not confirmed after 10 rounds" :=
  C7_timeout_202_distinct_from_rejected [] [] "caller" "caller" 0 0 envSlow envReject
    reqA reqA "sk" "sk" 7 7 "TXID1" "TXID1" 4 4 "overspend"
    (by decide) (by decide) (by decide) (by decide) (by decide) (by decide)
    rfl rfl rfl rfl rfl (fun _ => rfl) (fun _ => rfl)
    (by decide) (by decide) (by decide) (by decide) (by decide) (by decide)
    rfl rfl rfl rfl rfl rfl (by decide)

/-- C9: a non-integer amount n with n ≥ 1 is not rejected — `int()`
truncates it toward zero, which on nonnegative values is the floor, and the
transaction is built with the truncated value — while a fractional amount
strictly between 0 and 1 truncates to 0 and is answered 400 Invalid amount
with no interaction. -/
theorem C9_fractional_amount_truncation :
    (∀ (st : RLState) (ip : String) (now : Nat) (env : Env) (d : TransferReq)
        (pk : String) (p : Nat) (txId : String),
      (rate_limit ip now st).1 = false →
      d.fromAddr ≠ "" → d.mnemonic ≠ "" → d.toAddr ≠ "" →
      1 ≤ d.amount → d.amount.den ≠ 1 →
      env.toPrivateKey d.mnemonic = Except.ok pk →
      env.addressFromPrivateKey pk = d.fromAddr →
      env.suggestedParams = Except.ok p →
      env.sendTransaction ⟨mkTxn d p, pk⟩ = Except.ok txId →
      pyInt d.amount = ⌊d.amount⌋
      ∧ (transfer_funds st ip now env (Except.ok d)).1.status ≠ 400
      ∧ Event.buildTxn ⟨d.fromAddr, p, d.toAddr, ⌊d.amount⌋, noteField d.note⟩
          ∈ (transfer_funds st ip now env (Except.ok d)).2.1)
    ∧ (∀ (st : RLState) (ip : String) (now : Nat) (env : Env) (d : TransferReq),
      (rate_limit ip now st).1 = false →
      d.fromAddr ≠ "" → d.mnemonic ≠ "" → d.toAddr ≠ "" →
      0 < d.amount → d.amount < 1 →
      (transfer_funds st ip now env (Except.ok d)).1 = ⟨400, RespBody.invalidAmount⟩
      ∧ (transfer_funds st ip now env (Except.ok d)).2.1 = []) := by
  constructor
  · intro st ip now env d pk p txId hrl hfrom hmn hto hone hden hpk haddr hparams hsend
    have h0 : (0 : ℚ) ≤ d.amount := le_trans zero_le_one hone
    have hfl : pyInt d.amount = ⌊d.amount⌋ := pyInt_eq_floor d.amount h0
    have hpos : 0 < pyInt d.amount := pyInt_pos d.amount hone
    have hamt : d.amount ≠ 0 := by
      intro hc
      rw [hc] at hone
      exact absurd hone (by norm_num)
    refine ⟨hfl, ?_, ?_⟩
    · rw [transfer_submits st ip now env d pk p txId hrl hfrom hmn hto hamt hpos hpk
        haddr hparams hsend]
      rcases confirmWaitResp_status txId 10 (wait_for_confirmation env 10).1 with h | h <;>
        simp [h]
    · rw [transfer_submits st ip now env d pk p txId hrl hfrom hmn hto hamt hpos hpk
        haddr hparams hsend]
      simp [mkTxn, hfl]
  · intro st ip now env d hrl hfrom hmn hto h0 h1
    have hamt : d.amount ≠ 0 := ne_of_gt h0
    have hz : pyInt d.amount ≤ 0 := le_of_eq (pyInt_eq_zero d.amount (le_of_lt h0) h1)
    constructor <;> simp [transfer_funds, hrl, transferBody, hfrom, hmn, hto, hamt, hz]

/-- C9 witness: amount 3/2 is accepted and built with amount 1; amount 1/2
is rejected as Invalid amount with an empty trace. -/
theorem C9_fractional_amount_truncation_witness :
    (pyInt (mkRat 3 2) = ⌊(mkRat 3 2 : ℚ)⌋
      ∧ (transfer_funds [] "c" 0 envOk
          (Except.ok ⟨"ADDRA", "good mnemonic", "ADDRB", mkRat 3 2, ""⟩)).1.status ≠ 400
      ∧ Event.buildTxn ⟨"ADDRA", 7, "ADDRB", ⌊(mkRat 3 2 : ℚ)⌋, noteField ""⟩
          ∈ (transfer_funds [] "c" 0 envOk
              (Except.ok ⟨"ADDRA", "good mnemonic", "ADDRB", mkRat 3 2, ""⟩)).2.1)
    ∧ ((transfer_funds [] "c" 0 envOk
          (Except.ok ⟨"ADDRA", "good mnemonic", "ADDRB", mkRat 1 2, ""⟩)).1
        = ⟨400, RespBody.invalidAmount⟩
      ∧ (transfer_funds [] "c" 0 envOk
          (Except.ok ⟨"ADDRA", "good mnemonic", "ADDRB", mkRat 1 2, ""⟩)).2.1 = []) :=
  ⟨C9_fractional_amount_truncation.1 [] "c" 0 envOk
      ⟨"ADDRA", "good mnemonic", "ADDRB", mkRat 3 2, ""⟩ "sk" 7 "TXID1" (by decide)
      (by decide) (by decide) (by decide) (by decide) (by decide) rfl rfl rfl rfl,
    C9_fractional_amount_truncation.2 [] "c" 0 envOk
      ⟨"ADDRA", "good mnemonic", "ADDRB", mkRat 1 2, ""⟩ (by decide) (by decide)
      (by decide) (by decide) (by decide) (by decide)⟩

/-- C10: a request whose body fails JSON parsing is answered HTTP 500 with
the generic failure body (not 400) by both POST endpoints, with no field
validation and no node interaction: the parse failure reaches the catch-all
handler first. -/
theorem C10_unparsable_body_500 (st : RLState) (ip : String) (now : Nat)
    (env : Env) (e : String)
    (hrl : (rate_limit ip now st).1 = false) :
    (transfer_funds st ip now env (Except.error e)).1
        = ⟨500, RespBody.serverError ("Failed to transfer funds: " ++ e)⟩
    ∧ (transfer_funds st ip now env (Except.error e)).2.1 = []
    ∧ (transfer_funds st ip now env (Except.error e)).1.status ≠ 400
    ∧ (get_balance st ip now env (Except.error e)).1 = ⟨500, RespBody.balanceError⟩
    ∧ (get_balance st ip now env (Except.error e)).2.1 = []
    ∧ (get_balance st ip now env (Except.error e)).1.status ≠ 400 := by
  refine ⟨?_, ?_, ?_, ?_, ?_, ?_⟩ <;>
    simp [transfer_funds, get_balance, hrl, transferBody, balanceBody]

/-- C10 witness: a typical JSON-decoding failure message. -/
theorem C10_unparsable_body_500_witness :
    (transfer_funds [] "caller" 0 envOk (Except.error "Failed to decode JSON object")).1
        = ⟨500, RespBody.serverError ("Failed to transfer funds: " ++ "Failed to decode JSON object")⟩
    ∧ (transfer_funds [] "caller" 0 envOk (Except.error "Failed to decode JSON object")).2.1 = []
    ∧ (transfer_funds [] "caller" 0 envOk (Except.error "Failed to decode JSON object")).1.status ≠ 400
    ∧ (get_balance [] "caller" 0 envOk (Except.error "Failed to decode JSON object")).1
        = ⟨500, RespBody.balanceError⟩
    ∧ (get_balance [] "caller" 0 envOk (Except.error "Failed to decode JSON object")).2.1 = []
    ∧ (get_balance [] "caller" 0 envOk (Except.error "Failed to decode JSON object")).1.status ≠ 400 :=
  C10_unparsable_body_500 [] "caller" 0 envOk "Failed to decode JSON object" (by decide)

end AlgoApi
